import Mathlib

/-!
Shallow embedding of the tissue-rs client library (src/checkin.rs, src/error.rs,
src/tissue.rs): the validated check-in builder and the response classifier,
together with proofs of the specified properties.

Rust strings are modelled as Lean `String` (a sequence of Unicode scalar
values, matching Rust's `str::chars`).  JSON values (`serde_json::Value`) are
modelled by the inductive `Json`; JSON numbers are modelled as integers (the
claims under verification involve only integral numbers).  Fallible operations
return `Except`; the `expect` call in `parse_response`, which aborts the
process in Rust, is modelled by a distinct `panicked` outcome.
-/

namespace TissueRs

/-- Unicode `White_Space` code points: the characters accepted by Rust's
`char::is_whitespace`, used by `str::trim` and the tag validation loop. -/
def rust_is_whitespace (c : Char) : Bool :=
  [0x09, 0x0A, 0x0B, 0x0C, 0x0D, 0x20, 0x85, 0xA0, 0x1680,
   0x2000, 0x2001, 0x2002, 0x2003, 0x2004, 0x2005, 0x2006, 0x2007,
   0x2008, 0x2009, 0x200A, 0x2028, 0x2029, 0x202F, 0x205F, 0x3000].contains c.toNat

/-- Rust's `str::trim`: remove leading and trailing Unicode whitespace. -/
def rust_trim (s : String) : String :=
  String.mk (((s.data.dropWhile rust_is_whitespace).reverse.dropWhile
    rust_is_whitespace).reverse)

/-- `CheckinError` from src/error.rs. -/
inductive CheckinError where
  | TooLong
  | HasWhitespaces
deriving DecidableEq, Repr

/-- A `chrono::DateTime` value: a calendar date-time with sub-second precision
and a fixed UTC offset in minutes.  (chrono's timezone-generic `DateTime<Tz>`
is modelled by its resolved offset; `Local`/`Utc` differ only in which offset
`now()` picks, which is environment input.) -/
structure ChronoDateTime where
  year : Nat
  month : Nat
  day : Nat
  hour : Nat
  minute : Nat
  second : Nat
  nano : Nat
  offsetMinutes : Int
deriving DecidableEq, Repr

/-- `Checkin` from src/checkin.rs: the immutable value produced by `build()`. -/
structure Checkin where
  checked_in_at : String
  note : Option String
  link : Option String
  tags : List String
  is_private : Option Bool
  is_too_sensitive : Option Bool
deriving DecidableEq, Repr

/-- `CheckinBuilder` from src/checkin.rs. -/
structure CheckinBuilder where
  checked_in_at : ChronoDateTime
  note : Option String
  link : Option String
  tags : List String
  is_private : Option Bool
  is_too_sensitive : Option Bool
deriving DecidableEq, Repr

/-- `CheckinBuilder::with_datetime`. -/
def CheckinBuilder.with_datetime (checked_in_at : ChronoDateTime) : CheckinBuilder :=
  { checked_in_at := checked_in_at, note := none, link := none, tags := [],
    is_private := none, is_too_sensitive := none }

/-- `CheckinBuilder::new_local`: `Local::now()` is environment input, so the
current instant is a parameter. -/
def CheckinBuilder.new_local (now : ChronoDateTime) : CheckinBuilder :=
  { checked_in_at := now, note := none, link := none, tags := [],
    is_private := none, is_too_sensitive := none }

/-- `CheckinBuilder::new_utc`: `Utc::now()` is environment input, so the
current instant is a parameter. -/
def CheckinBuilder.new_utc (now : ChronoDateTime) : CheckinBuilder :=
  { checked_in_at := now, note := none, link := none, tags := [],
    is_private := none, is_too_sensitive := none }

/-- `CheckinBuilder::note`: `&mut self` methods are modelled as returning the
Rust `Result` together with the post-state of the builder. -/
def CheckinBuilder.set_note (b : CheckinBuilder) (text : String) :
    Except CheckinError Unit × CheckinBuilder :=
  if text.length ≤ 500 then (.ok (), { b with note := some text })
  else (.error .TooLong, b)

/-- `CheckinBuilder::link`. -/
def CheckinBuilder.set_link (b : CheckinBuilder) (link : String) :
    Except CheckinError Unit × CheckinBuilder :=
  if link.length ≤ 2000 then (.ok (), { b with link := some link })
  else (.error .TooLong, b)

/-- The validation loop inside `CheckinBuilder::tags`: trim each entry, skip
entries that trim to empty, abort with `HasWhitespaces` on interior whitespace,
otherwise collect the trimmed entries in order. -/
def validateTags : List String → Except CheckinError (List String)
  | [] => .ok []
  | tag :: rest =>
    let tag_str := rust_trim tag
    if tag_str = "" then validateTags rest
    else if tag_str.data.any rust_is_whitespace then .error .HasWhitespaces
    else (validateTags rest).map (fun v => tag_str :: v)

/-- `CheckinBuilder::tags`.  Note: the source computes the `validated` list but
never assigns it to `self.tags`; on success the builder is returned unchanged,
exactly as the Rust code behaves. -/
def CheckinBuilder.set_tags (b : CheckinBuilder) (tags : List String) :
    Except CheckinError Unit × CheckinBuilder :=
  match validateTags tags with
  | .error e => (.error e, b)
  | .ok _validated => (.ok (), b)

/-- `CheckinBuilder::is_private`. -/
def CheckinBuilder.set_private (b : CheckinBuilder) (is_private : Bool) : CheckinBuilder :=
  { b with is_private := some is_private }

/-- `CheckinBuilder::is_too_sensitive`. -/
def CheckinBuilder.set_too_sensitive (b : CheckinBuilder) (is_too_sensitive : Bool) :
    CheckinBuilder :=
  { b with is_too_sensitive := some is_too_sensitive }

/-- Two-digit zero-padded decimal rendering (chrono `%m`, `%d`, `%H`, `%M`,
`%S`, and the offset components). -/
def pad2Chars (n : Nat) : List Char :=
  [Nat.digitChar (n / 10 % 10), Nat.digitChar (n % 10)]

/-- Four-digit zero-padded decimal rendering (chrono `%Y` for years 0–9999). -/
def pad4Chars (n : Nat) : List Char :=
  [Nat.digitChar (n / 1000 % 10), Nat.digitChar (n / 100 % 10),
   Nat.digitChar (n / 10 % 10), Nat.digitChar (n % 10)]

/-- Rendering of the UTC offset by `to_rfc3339_opts(..., use_z = true)`:
`Z` for the zero offset, otherwise a signed `HH:MM`. -/
def offsetChars (off : Int) : List Char :=
  if off = 0 then ['Z']
  else (if 0 ≤ off then '+' else '-') ::
    (pad2Chars (off.natAbs / 60) ++ ':' :: pad2Chars (off.natAbs % 60))

/-- chrono's `DateTime::to_rfc3339_opts(SecondsFormat::Secs, true)`:
`YYYY-MM-DDTHH:MM:SS` followed by `Z` or a signed `HH:MM` offset. -/
def to_rfc3339_secs (dt : ChronoDateTime) : String :=
  String.mk (pad4Chars dt.year ++ '-' :: pad2Chars dt.month ++ '-' :: pad2Chars dt.day ++
    'T' :: pad2Chars dt.hour ++ ':' :: pad2Chars dt.minute ++ ':' :: pad2Chars dt.second ++
    offsetChars dt.offsetMinutes)

/-- `CheckinBuilder::build`. -/
def CheckinBuilder.build (b : CheckinBuilder) : Checkin :=
  { checked_in_at := to_rfc3339_secs b.checked_in_at,
    note := b.note, link := b.link, tags := b.tags,
    is_private := b.is_private, is_too_sensitive := b.is_too_sensitive }

/-- The range invariant chrono maintains for every constructed `DateTime`
(restricted to four-digit years, where `%Y` emits exactly four digits). -/
def ValidDateTime (dt : ChronoDateTime) : Prop :=
  dt.year ≤ 9999 ∧ 1 ≤ dt.month ∧ dt.month ≤ 12 ∧ 1 ≤ dt.day ∧ dt.day ≤ 31 ∧
  dt.hour ≤ 23 ∧ dt.minute ≤ 59 ∧ dt.second ≤ 60 ∧ dt.nano < 2000000000 ∧
  dt.offsetMinutes.natAbs ≤ 23 * 60 + 59

instance (dt : ChronoDateTime) : Decidable (ValidDateTime dt) := by
  unfold ValidDateTime; infer_instance

/-- Written from the spec's words: an RFC-3339-compatible second-precision
timestamp string, `YYYY-MM-DDTHH:MM:SS` followed by `Z` or `±HH:MM`. -/
def isRfc3339SecsChars : List Char → Bool
  | [y1, y2, y3, y4, '-', m1, m2, '-', d1, d2, 'T',
     h1, h2, ':', n1, n2, ':', s1, s2, 'Z'] =>
    [y1, y2, y3, y4, m1, m2, d1, d2, h1, h2, n1, n2, s1, s2].all Char.isDigit
  | [y1, y2, y3, y4, '-', m1, m2, '-', d1, d2, 'T',
     h1, h2, ':', n1, n2, ':', s1, s2, sg, o1, o2, ':', o3, o4] =>
    (sg = '+' ∨ sg = '-') ∧
    [y1, y2, y3, y4, m1, m2, d1, d2, h1, h2, n1, n2, s1, s2, o1, o2, o3, o4].all Char.isDigit
  | _ => false

/-- String form of the RFC-3339 shape checker. -/
def isRfc3339SecsString (s : String) : Bool :=
  isRfc3339SecsChars s.data

/-- `serde_json::Value`, with numbers restricted to the integral ones (the
classifier's claims only involve integral JSON numbers). -/
inductive Json where
  | null
  | bool (b : Bool)
  | num (n : Int)
  | str (s : String)
  | arr (elems : List Json)
  | obj (members : List (String × Json))

/-- `value[key]` for a string key (`Index<&str> for Value`): field lookup on an
object, `Null` for a missing field or a non-object. -/
def Json.index (v : Json) (key : String) : Json :=
  match v with
  | .obj members =>
    match members.find? (fun m => m.1 = key) with
    | some m => m.2
    | none => .null
  | _ => .null

/-- `Value::as_u64`: the number, when it is integral and fits in `u64`. -/
def Json.as_u64 (v : Json) : Option Nat :=
  match v with
  | .num n => if 0 ≤ n ∧ n < 2 ^ 64 then some n.toNat else none
  | _ => none

/-- `Value::as_str`. -/
def Json.as_str (v : Json) : Option String :=
  match v with
  | .str s => some s
  | _ => none

/-- `Value::is_array`. -/
def Json.is_array (v : Json) : Bool :=
  match v with
  | .arr _ => true
  | _ => false

/-- Numeric value of a decimal digit character. -/
def digitVal (c : Char) : Option Nat :=
  if c.isDigit then some (c.toNat - '0'.toNat) else none

/-- Two fixed decimal digits. -/
def digits2 (a b : Char) : Option Nat := do
  let x ← digitVal a
  let y ← digitVal b
  pure (10 * x + y)

/-- Four fixed decimal digits. -/
def digits4 (a b c d : Char) : Option Nat := do
  let x ← digits2 a b
  let y ← digits2 c d
  pure (100 * x + y)

/-- Gregorian leap-year rule. -/
def isLeapYear (y : Nat) : Bool :=
  y % 4 = 0 ∧ (y % 100 ≠ 0 ∨ y % 400 = 0)

/-- Number of days in a month, as chrono's calendar validation uses. -/
def daysInMonth (y m : Nat) : Nat :=
  if m = 2 then (if isLeapYear y then 29 else 28)
  else if m = 4 ∨ m = 6 ∨ m = 9 ∨ m = 11 then 30
  else 31

/-- Nanoseconds denoted by a fractional-second digit string (chrono keeps the
first nine digits and ignores the rest). -/
def nanosOfDigits (ds : List Char) : Nat :=
  let ds9 := ds.take 9
  (ds9.foldl (fun acc c => acc * 10 + (c.toNat - '0'.toNat)) 0) * 10 ^ (9 - ds9.length)

/-- Optional fractional-second part of an RFC 3339 timestamp: a dot must be
followed by at least one digit. -/
def parseFrac : List Char → Option (Nat × List Char)
  | '.' :: rest =>
    let ds := rest.takeWhile Char.isDigit
    if ds.isEmpty then none
    else some (nanosOfDigits ds, rest.dropWhile Char.isDigit)
  | rest => some (0, rest)

/-- Trailing UTC-offset part of an RFC 3339 timestamp: `Z`/`z` or `±HH:MM`,
yielding the offset in minutes. -/
def parseOffset : List Char → Option Int
  | ['Z'] => some 0
  | ['z'] => some 0
  | [sg, o1, o2, ':', o3, o4] => do
    let h ← digits2 o1 o2
    let m ← digits2 o3 o4
    if h ≤ 23 ∧ m ≤ 59 then
      if sg = '+' then some (h * 60 + m)
      else if sg = '-' then some (-(h * 60 + m : Int))
      else none
    else none
  | _ => none

/-- Modelled from the external chrono crate (not part of this repository):
RFC 3339 date-time parsing as used by `Deserialize for DateTime`, i.e.
`YYYY-MM-DDTHH:MM:SS(.frac)?(Z|±HH:MM)` with calendar and range validation.
The subsequent conversion to `DateTime<Local>` preserves the instant and is
environment-dependent, so the parsed fixed-offset value itself is kept. -/
def parseRfc3339Chars : List Char → Option ChronoDateTime
  | y1 :: y2 :: y3 :: y4 :: '-' :: m1 :: m2 :: '-' :: d1 :: d2 :: sep ::
      h1 :: h2 :: ':' :: n1 :: n2 :: ':' :: s1 :: s2 :: rest => do
    if sep = 'T' ∨ sep = 't' ∨ sep = ' ' then
      let y ← digits4 y1 y2 y3 y4
      let mo ← digits2 m1 m2
      let d ← digits2 d1 d2
      let h ← digits2 h1 h2
      let mi ← digits2 n1 n2
      let s ← digits2 s1 s2
      let fr ← parseFrac rest
      let off ← parseOffset fr.2
      if 1 ≤ mo ∧ mo ≤ 12 ∧ 1 ≤ d ∧ d ≤ daysInMonth y mo ∧ h ≤ 23 ∧ mi ≤ 59 ∧ s ≤ 60
      then some ⟨y, mo, d, h, mi, s, fr.1, off⟩
      else none
    else none
  | _ => none

/-- String form of the RFC 3339 parser. -/
def parseRfc3339 (s : String) : Option ChronoDateTime :=
  parseRfc3339Chars s.data

/-- `ReceivedCheckin` from src/tissue.rs. -/
structure ReceivedCheckin where
  id : Nat
  checked_in_at : ChronoDateTime
  note : String
  link : String
  tags : List String
  source : String
  is_private : Bool
  is_too_sensitive : Bool
deriving DecidableEq, Repr

/-- serde map-field access: a required struct field of a JSON object. -/
def getField (v : Json) (key : String) : Except String Json :=
  match v with
  | .obj members =>
    match members.find? (fun m => m.1 = key) with
    | some m => .ok m.2
    | none => .error ("missing field " ++ key)
  | _ => .error "invalid type: expected a map"

/-- serde decode of a `usize` field. -/
def decodeUsize (v : Json) : Except String Nat :=
  match v with
  | .num n => if 0 ≤ n ∧ n < 2 ^ 64 then .ok n.toNat
              else .error "invalid value: integer out of range"
  | _ => .error "invalid type: expected an unsigned integer"

/-- serde decode of a `String` field. -/
def decodeString (v : Json) : Except String String :=
  match v with
  | .str s => .ok s
  | _ => .error "invalid type: expected a string"

/-- serde decode of a `bool` field. -/
def decodeBool (v : Json) : Except String Bool :=
  match v with
  | .bool b => .ok b
  | _ => .error "invalid type: expected a boolean"

/-- serde decode of a `DateTime<Local>` field: an RFC 3339 string. -/
def decodeDateTime (v : Json) : Except String ChronoDateTime :=
  match v with
  | .str s =>
    match parseRfc3339 s with
    | some dt => .ok dt
    | none => .error "invalid value: premature end of input or invalid datetime"
  | _ => .error "invalid type: expected a datetime string"

/-- serde sequence visitor for `Vec<String>`: element-wise, first failure
wins. -/
def decodeStringList : List Json → Except String (List String)
  | [] => .ok []
  | x :: xs => do
    let s ← decodeString x
    let rest ← decodeStringList xs
    pure (s :: rest)

/-- serde decode of a `Vec<String>` (used for `tags` and for the
`error.violations` array). -/
def decodeStringArray (v : Json) : Except String (List String) :=
  match v with
  | .arr xs => decodeStringList xs
  | _ => .error "invalid type: expected a sequence"

/-- `serde_json::from_value::<ReceivedCheckin>`: every field is required with
the declared type; unknown fields are ignored. -/
def decodeReceivedCheckin (v : Json) : Except String ReceivedCheckin := do
  let id ← decodeUsize (← getField v "id")
  let checked_in_at ← decodeDateTime (← getField v "checked_in_at")
  let note ← decodeString (← getField v "note")
  let link ← decodeString (← getField v "link")
  let tags ← decodeStringArray (← getField v "tags")
  let source ← decodeString (← getField v "source")
  let is_private ← decodeBool (← getField v "is_private")
  let is_too_sensitive ← decodeBool (← getField v "is_too_sensitive")
  pure ⟨id, checked_in_at, note, link, tags, source, is_private, is_too_sensitive⟩

/-- `CheckinResponse` from src/tissue.rs. -/
inductive CheckinResponse where
  | Success (checkin : ReceivedCheckin)
  | ValidationError (violations : List String)
  | OtherError (message : String)
deriving DecidableEq, Repr

/-- An error returned by `parse_response` through its `Result` (the Rust code
boxes these as `Box<dyn Error>`): a serde decode failure propagated by `?`, or
the formatted unknown-status-code error, which carries the status and the raw
response body. -/
inductive ParseErr where
  | decodeErr (msg : String)
  | unexpectedStatus (status : Nat) (body : Json)

/-- Outcome of `parse_response`: a returned `CheckinResponse`, a returned
error, or a process abort via `expect` (modelled explicitly, since a panic is
not a value returned to the caller). -/
inductive ParseOutcome where
  | ok (response : CheckinResponse)
  | err (e : ParseErr)
  | panicked (msg : String)

/-- `parse_response` from src/tissue.rs. -/
def parse_response (value : Json) : ParseOutcome :=
  match (value.index "status").as_u64 with
  | none => .panicked "Status code should exist"
  | some status_code =>
    if status_code = 200 then
      match decodeReceivedCheckin (value.index "checkin") with
      | .ok received_checkin => .ok (.Success received_checkin)
      | .error e => .err (.decodeErr e)
    else if status_code = 404 ∨ status_code = 422 then
      let error_object := value.index "error"
      if (error_object.index "violations").is_array then
        match decodeStringArray (error_object.index "violations") with
        | .ok violations => .ok (.ValidationError violations)
        | .error e => .err (.decodeErr e)
      else
        .ok (.OtherError (((error_object.index "message").as_str).getD ""))
    else
      .err (.unexpectedStatus status_code value)

/-- One mutating builder call, for reasoning about arbitrary call sequences. -/
inductive BuilderOp where
  | setNote (text : String)
  | setLink (text : String)
  | setTags (tags : List String)
  | setPrivate (b : Bool)
  | setTooSensitive (b : Bool)

/-- Post-state of the builder after one call (on a failed call the builder is
exactly the pre-state, so this covers failed and successful calls alike). -/
def applyOp (b : CheckinBuilder) : BuilderOp → CheckinBuilder
  | .setNote text => (b.set_note text).2
  | .setLink text => (b.set_link text).2
  | .setTags tags => (b.set_tags tags).2
  | .setPrivate p => b.set_private p
  | .setTooSensitive p => b.set_too_sensitive p

/-- Post-state after a sequence of builder calls. -/
def applyOps (b : CheckinBuilder) : List BuilderOp → CheckinBuilder
  | [] => b
  | op :: ops => applyOps (applyOp b op) ops

/-! ### Shared lemmas about the embedding -/

/-- The tag-validation loop rejects (necessarily with `HasWhitespaces`) exactly
when some entry still contains a whitespace character after trimming. -/
theorem validateTags_eq_error_iff (l : List String) :
    validateTags l = .error .HasWhitespaces ↔
      ∃ t ∈ l, (rust_trim t).data.any rust_is_whitespace = true := by
  induction l with
  | nil =>
    constructor
    · intro h; exact absurd h (by simp [validateTags])
    · rintro ⟨t, ht, _⟩; cases ht
  | cons t rest ih =>
    by_cases h1 : rust_trim t = ""
    · have h2 : ((rust_trim t).data.any rust_is_whitespace) = false := by rw [h1]; rfl
      rw [validateTags, if_pos h1, ih]
      constructor
      · rintro ⟨u, hu, hw⟩; exact ⟨u, List.mem_cons_of_mem _ hu, hw⟩
      · rintro ⟨u, hu, hw⟩
        rcases List.mem_cons.mp hu with h | hu'
        · subst h; rw [hw] at h2; cases h2
        · exact ⟨u, hu', hw⟩
    · cases hB : (rust_trim t).data.any rust_is_whitespace with
      | true =>
        rw [validateTags, if_neg h1, if_pos hB]
        constructor
        · intro _; exact ⟨t, List.mem_cons_self t rest, hB⟩
        · intro _; rfl
      | false =>
        rw [validateTags, if_neg h1, if_neg (by simp [hB])]
        cases hv : validateTags rest with
        | ok v =>
          rw [hv] at ih
          constructor
          · intro h; exact absurd h (by simp [Except.map])
          · rintro ⟨u, hu, hw⟩
            rcases List.mem_cons.mp hu with h | hu'
            · subst h; rw [hw] at hB; cases hB
            · exact absurd (ih.mpr ⟨u, hu', hw⟩) (by simp)
        | error e =>
          rw [hv] at ih
          constructor
          · intro h
            have he : e = CheckinError.HasWhitespaces := by
              simpa [Except.map] using h
            rcases ih.mp (by rw [he]) with ⟨u, hu', hw⟩
            exact ⟨u, List.mem_cons_of_mem _ hu', hw⟩
          · rintro ⟨u, hu, hw⟩
            rcases List.mem_cons.mp hu with h | hu'
            · subst h; rw [hw] at hB; cases hB
            · have := ih.mpr ⟨u, hu', hw⟩
              simpa [Except.map] using this

/-- The sequence visitor succeeds on an array that is entirely strings. -/
theorem decodeStringList_map_str (ss : List String) :
    decodeStringList (ss.map Json.str) = .ok ss := by
  induction ss with
  | nil => rfl
  | cons s rest ih => simp [decodeStringList, decodeString, ih]; rfl

/-- `from_value::<Vec<String>>` succeeds on an array of strings. -/
theorem decodeStringArray_map_str (ss : List String) :
    decodeStringArray (Json.arr (ss.map Json.str)) = .ok ss := by
  simp [decodeStringArray, decodeStringList_map_str]

/-- The last decimal digit of any number renders as a digit character. -/
theorem digitChar_isDigit (k : Nat) : (Nat.digitChar (k % 10)).isDigit = true := by
  have h : ∀ m < 10, (Nat.digitChar m).isDigit = true := by decide
  exact h _ (Nat.mod_lt _ (by decide))

/-- The canonical renderer only emits RFC-3339-shaped second-precision
strings.  (The `ValidDateTime` bound is where the four-digit `%Y` model of
chrono is faithful.) -/
theorem to_rfc3339_secs_wellFormed (dt : ChronoDateTime) (_h : ValidDateTime dt) :
    isRfc3339SecsString (to_rfc3339_secs dt) = true := by
  show isRfc3339SecsChars (pad4Chars dt.year ++ '-' :: pad2Chars dt.month ++
    '-' :: pad2Chars dt.day ++ 'T' :: pad2Chars dt.hour ++ ':' :: pad2Chars dt.minute ++
    ':' :: pad2Chars dt.second ++ offsetChars dt.offsetMinutes) = true
  by_cases hz : dt.offsetMinutes = 0
  · simp [offsetChars, hz, pad4Chars, pad2Chars, isRfc3339SecsChars, digitChar_isDigit]
  · by_cases hpos : (0 : Int) ≤ dt.offsetMinutes
    · simp [offsetChars, hz, hpos, pad4Chars, pad2Chars, isRfc3339SecsChars, digitChar_isDigit]
    · simp [offsetChars, hz, hpos, pad4Chars, pad2Chars, isRfc3339SecsChars, digitChar_isDigit]

/-- The per-field invariant the builder maintains at all times. -/
def builderInv (b : CheckinBuilder) : Prop :=
  (∀ s, b.note = some s → s.length ≤ 500) ∧
  (∀ s, b.link = some s → s.length ≤ 2000) ∧
  (∀ t ∈ b.tags, t ≠ "" ∧ t.data.any rust_is_whitespace = false)

/-- No builder call ever changes the stored tag sequence (the `tags` method
validates but never writes `self.tags`). -/
theorem applyOp_tags_eq (b : CheckinBuilder) (op : BuilderOp) :
    (applyOp b op).tags = b.tags := by
  cases op with
  | setNote text =>
    show (b.set_note text).2.tags = b.tags
    unfold CheckinBuilder.set_note; split <;> rfl
  | setLink text =>
    show (b.set_link text).2.tags = b.tags
    unfold CheckinBuilder.set_link; split <;> rfl
  | setTags tags =>
    show (b.set_tags tags).2.tags = b.tags
    unfold CheckinBuilder.set_tags; split <;> rfl
  | setPrivate p => rfl
  | setTooSensitive p => rfl

/-- No builder call changes the timestamp. -/
theorem applyOp_checked_in_at_eq (b : CheckinBuilder) (op : BuilderOp) :
    (applyOp b op).checked_in_at = b.checked_in_at := by
  cases op with
  | setNote text =>
    show (b.set_note text).2.checked_in_at = b.checked_in_at
    unfold CheckinBuilder.set_note; split <;> rfl
  | setLink text =>
    show (b.set_link text).2.checked_in_at = b.checked_in_at
    unfold CheckinBuilder.set_link; split <;> rfl
  | setTags tags =>
    show (b.set_tags tags).2.checked_in_at = b.checked_in_at
    unfold CheckinBuilder.set_tags; split <;> rfl
  | setPrivate p => rfl
  | setTooSensitive p => rfl

/-- Every single builder call preserves the field invariant. -/
theorem applyOp_inv (b : CheckinBuilder) (op : BuilderOp) (h : builderInv b) :
    builderInv (applyOp b op) := by
  obtain ⟨hn, hl, ht⟩ := h
  cases op with
  | setNote text =>
    show builderInv (b.set_note text).2
    unfold CheckinBuilder.set_note
    split
    · next hle => exact ⟨fun s hs => by cases hs; simpa using hle, hl, ht⟩
    · exact ⟨hn, hl, ht⟩
  | setLink text =>
    show builderInv (b.set_link text).2
    unfold CheckinBuilder.set_link
    split
    · next hle => exact ⟨hn, fun s hs => by cases hs; simpa using hle, ht⟩
    · exact ⟨hn, hl, ht⟩
  | setTags tags =>
    show builderInv (b.set_tags tags).2
    unfold CheckinBuilder.set_tags
    split <;> exact ⟨hn, hl, ht⟩
  | setPrivate p => exact ⟨hn, hl, ht⟩
  | setTooSensitive p => exact ⟨hn, hl, ht⟩

/-- Any sequence of builder calls preserves the field invariant. -/
theorem applyOps_inv (b : CheckinBuilder) (ops : List BuilderOp) (h : builderInv b) :
    builderInv (applyOps b ops) := by
  induction ops generalizing b with
  | nil => exact h
  | cons op ops ih => exact ih _ (applyOp_inv b op h)

/-- The stored tag sequence after any call sequence is the initial one. -/
theorem applyOps_tags_eq (b : CheckinBuilder) (ops : List BuilderOp) :
    (applyOps b ops).tags = b.tags := by
  induction ops generalizing b with
  | nil => rfl
  | cons op ops ih => rw [applyOps, ih, applyOp_tags_eq]

/-- The timestamp after any call sequence is the initial one. -/
theorem applyOps_checked_in_at_eq (b : CheckinBuilder) (ops : List BuilderOp) :
    (applyOps b ops).checked_in_at = b.checked_in_at := by
  induction ops generalizing b with
  | nil => rfl
  | cons op ops ih => rw [applyOps, ih, applyOp_checked_in_at_eq]

/-- All constraints the spec requires of a built `Checkin`. -/
def checkinWellFormed (c : Checkin) : Prop :=
  (∀ s, c.note = some s → s.length ≤ 500) ∧
  (∀ s, c.link = some s → s.length ≤ 2000) ∧
  (∀ t ∈ c.tags, t ≠ "" ∧ t.data.any rust_is_whitespace = false) ∧
  isRfc3339SecsString c.checked_in_at = true

/-! ### Concrete sample inputs used by the witnesses -/

/-- A concrete timestamp (UTC offset +09:00). -/
def sampleDT : ChronoDateTime := ⟨2021, 3, 14, 15, 9, 26, 0, 540⟩

/-- A concrete fresh builder. -/
def sampleBuilder : CheckinBuilder := CheckinBuilder.with_datetime sampleDT

/-- A note of 501 logical characters (1503 UTF-8 bytes). -/
def s501 : String := String.mk (List.replicate 501 'あ')

/-- A link of 2001 logical characters. -/
def s2001 : String := String.mk (List.replicate 2001 'あ')

/-- Scenario A response body: a successful checkin echo. -/
def bodyA : Json :=
  .obj [("status", .num 200),
        ("checkin", .obj [("id", .num 1), ("checked_in_at", .str "2021-01-01T00:00:00+09:00"),
          ("note", .str "n"), ("link", .str "l"), ("tags", .arr []), ("source", .str "api"),
          ("is_private", .bool false), ("is_too_sensitive", .bool false)])]

/-- The `ReceivedCheckin` carried by scenario A. -/
def receivedA : ReceivedCheckin :=
  ⟨1, ⟨2021, 1, 1, 0, 0, 0, 0, 540⟩, "n", "l", [], "api", false, false⟩

/-- Scenario B response body: a validation rejection. -/
def bodyB : Json :=
  .obj [("status", .num 422),
        ("error", .obj [("violations", .arr [.str "duplicate timestamp"])])]

end TissueRs

namespace TissueRs

/-- C1: the spec's `set_tags` contract — on valid input the call succeeds and
the stored tag sequence becomes the trimmed, non-empty-filtered input — is
violated by the code: on the fresh builder, `tags(["tag"])` succeeds and the
validation loop yields `["tag"]`, yet the stored tag sequence afterwards is
`[]`, because the source never assigns the `validated` vector to `self.tags`. -/
theorem c1_tags_not_stored :
    sampleBuilder.set_tags ["tag"] = (.ok (), sampleBuilder) ∧
    validateTags ["tag"] = .ok ["tag"] ∧
    (sampleBuilder.set_tags ["tag"]).2.tags = [] :=
  ⟨rfl, rfl, rfl⟩

/-- C2 counterexample: on the body `{}` (no `status` field) the classifier
panics via `expect` instead of returning a structural-decode failure result. -/
theorem c2_counterexample :
    parse_response (Json.obj []) = .panicked "Status code should exist" := rfl

/-- C2 (amended): for every response body whose `status` field is missing or
not an unsigned integer, the classifier panics with the `expect` message
`Status code should exist`; no failure result and no `CheckinResponse`
variant is returned to the caller. -/
theorem c2_missing_status_panics (v : Json)
    (h : (v.index "status").as_u64 = none) :
    parse_response v = .panicked "Status code should exist" := by
  simp [parse_response, h]

/-- C2 witness: a body whose `status` field is a string. -/
theorem c2_missing_status_panics_witness :
    parse_response (Json.obj [("status", Json.str "200")]) =
      .panicked "Status code should exist" :=
  c2_missing_status_panics _ rfl

/-- C3: text of at most 500 (note) / 2000 (link) logical characters is stored
exactly, replacing the previous value; text of 501 / 2001 logical characters
fails with `TooLong` and leaves the builder unchanged. -/
theorem c3_note_link_limits (b : CheckinBuilder) (s : String) :
    (s.length ≤ 500 → b.set_note s = (.ok (), { b with note := some s })) ∧
    (s.length = 501 → b.set_note s = (.error .TooLong, b)) ∧
    (s.length ≤ 2000 → b.set_link s = (.ok (), { b with link := some s })) ∧
    (s.length = 2001 → b.set_link s = (.error .TooLong, b)) := by
  refine ⟨fun h => ?_, fun h => ?_, fun h => ?_, fun h => ?_⟩
  · rw [CheckinBuilder.set_note, if_pos h]
  · rw [CheckinBuilder.set_note, if_neg (by omega)]
  · rw [CheckinBuilder.set_link, if_pos h]
  · rw [CheckinBuilder.set_link, if_neg (by omega)]

/-- C3 witness: both setters at both sides of the limit, with a multi-byte
character so that logical-character counting (not byte counting) is what is
exercised. -/
theorem c3_note_link_limits_witness :
    sampleBuilder.set_note "abc" = (.ok (), { sampleBuilder with note := some "abc" }) ∧
    sampleBuilder.set_note s501 = (.error .TooLong, sampleBuilder) ∧
    sampleBuilder.set_link "abc" = (.ok (), { sampleBuilder with link := some "abc" }) ∧
    sampleBuilder.set_link s2001 = (.error .TooLong, sampleBuilder) :=
  ⟨(c3_note_link_limits sampleBuilder "abc").1 (by decide),
   (c3_note_link_limits sampleBuilder s501).2.1 (by
      rw [show s501.length = (List.replicate 501 'あ').length from rfl,
        List.length_replicate]),
   (c3_note_link_limits sampleBuilder "abc").2.2.1 (by decide),
   (c3_note_link_limits sampleBuilder s2001).2.2.2 (by
      rw [show s2001.length = (List.replicate 2001 'あ').length from rfl,
        List.length_replicate])⟩

/-- C4: for a body with status 404 or 422: when `error.violations` is an array
of strings the classifier returns `ValidationError` carrying exactly those
strings; when `error.violations` is not an array it returns `OtherError` with
the string at `error.message`, or the empty string when that field is absent. -/
theorem c4_validation_or_other (v : Json) (s : Nat)
    (h : (v.index "status").as_u64 = some s) (hs : s = 404 ∨ s = 422) :
    (∀ ss : List String,
      (v.index "error").index "violations" = Json.arr (ss.map Json.str) →
        parse_response v = .ok (.ValidationError ss)) ∧
    (((v.index "error").index "violations").is_array = false →
      (∀ m, ((v.index "error").index "message").as_str = some m →
        parse_response v = .ok (.OtherError m)) ∧
      (((v.index "error").index "message").as_str = none →
        parse_response v = .ok (.OtherError ""))) := by
  constructor
  · intro ss hv
    rcases hs with rfl | rfl <;>
      simp [parse_response, h, hv, Json.is_array, decodeStringArray_map_str]
  · intro hna
    constructor
    · intro m hm
      rcases hs with rfl | rfl <;> simp [parse_response, h, hna, hm]
    · intro hm
      rcases hs with rfl | rfl <;> simp [parse_response, h, hna, hm]

/-- C4 witness: classifier scenario B. -/
theorem c4_validation_or_other_witness :
    parse_response bodyB = .ok (.ValidationError ["duplicate timestamp"]) :=
  (c4_validation_or_other bodyB 422 rfl (Or.inr rfl)).1 ["duplicate timestamp"] rfl

/-- C5: for a body with status 200, a `checkin` object that decodes into the
`ReceivedCheckin` shape yields `Success` carrying exactly the parsed value,
and a `checkin` object that does not decode yields a decode-error failure,
never a `CheckinResponse` variant. -/
theorem c5_success_decode (v : Json)
    (h : (v.index "status").as_u64 = some 200) :
    (∀ r, decodeReceivedCheckin (v.index "checkin") = .ok r →
      parse_response v = .ok (.Success r)) ∧
    (∀ e, decodeReceivedCheckin (v.index "checkin") = .error e →
      parse_response v = .err (.decodeErr e)) := by
  constructor <;> intro x hx <;> simp [parse_response, h, hx]

/-- C5 witness: scenario A decodes and is returned as `Success`; a 200 body
without a decodable `checkin` object fails with a decode error. -/
theorem c5_success_decode_witness :
    parse_response bodyA = .ok (.Success receivedA) ∧
    parse_response (Json.obj [("status", Json.num 200)]) =
      .err (.decodeErr "invalid type: expected a map") :=
  ⟨(c5_success_decode bodyA rfl).1 receivedA rfl,
   (c5_success_decode (Json.obj [("status", Json.num 200)]) rfl).2
     "invalid type: expected a map" rfl⟩

/-- C6: for a body whose `status` is an unsigned integer other than 200, 404
and 422, classification fails with the unexpected-status error carrying the
status value and the raw body; no `CheckinResponse` variant is produced. -/
theorem c6_unexpected_status (v : Json) (s : Nat)
    (h : (v.index "status").as_u64 = some s)
    (h200 : s ≠ 200) (h404 : s ≠ 404) (h422 : s ≠ 422) :
    parse_response v = .err (.unexpectedStatus s v) := by
  simp [parse_response, h, h200, h404, h422]

/-- C6 witness: classifier scenario D (status 500). -/
theorem c6_unexpected_status_witness :
    parse_response (Json.obj [("status", Json.num 500)]) =
      .err (.unexpectedStatus 500 (Json.obj [("status", Json.num 500)])) :=
  c6_unexpected_status _ 500 rfl (by decide) (by decide) (by decide)

/-- C7: a tag collection containing an entry whose trimmed form still has a
whitespace character (necessarily interior) makes `tags` fail with
`HasWhitespaces`, and the builder — all fields — is exactly its pre-call
state. -/
theorem c7_has_whitespaces_unchanged (b : CheckinBuilder) (tags : List String)
    (h : ∃ t ∈ tags, (rust_trim t).data.any rust_is_whitespace = true) :
    b.set_tags tags = (.error .HasWhitespaces, b) := by
  have hv := (validateTags_eq_error_iff tags).mpr h
  simp [CheckinBuilder.set_tags, hv]

/-- C7 witness: a collection with one valid entry and one whose trimmed form
has interior whitespace. -/
theorem c7_has_whitespaces_unchanged_witness :
    sampleBuilder.set_tags ["ok", " a b "] = (.error .HasWhitespaces, sampleBuilder) :=
  c7_has_whitespaces_unchanged sampleBuilder ["ok", " a b "]
    ⟨" a b ", by decide, by decide⟩

/-- C8: every `Checkin` obtained from `build()` after any sequence of builder
calls, starting from any of the three constructors, satisfies all field
constraints: note ≤ 500 characters, link ≤ 2000 characters, every tag
non-empty and whitespace-free, and the timestamp a (non-null, always-present)
RFC-3339-compatible second-precision rendering. -/
theorem c8_built_checkin_well_formed (dt : ChronoDateTime) (ops : List BuilderOp)
    (hdt : ValidDateTime dt) :
    checkinWellFormed ((applyOps (CheckinBuilder.with_datetime dt) ops).build) ∧
    checkinWellFormed ((applyOps (CheckinBuilder.new_local dt) ops).build) ∧
    checkinWellFormed ((applyOps (CheckinBuilder.new_utc dt) ops).build) := by
  have base : builderInv (CheckinBuilder.with_datetime dt) := by
    refine ⟨?_, ?_, ?_⟩
    · intro s hs; cases hs
    · intro s hs; cases hs
    · intro t ht; cases ht
  have htags := applyOps_tags_eq (CheckinBuilder.with_datetime dt) ops
  have hts := applyOps_checked_in_at_eq (CheckinBuilder.with_datetime dt) ops
  have hwf : checkinWellFormed ((applyOps (CheckinBuilder.with_datetime dt) ops).build) := by
    have hinv := applyOps_inv (CheckinBuilder.with_datetime dt) ops base
    unfold builderInv at hinv
    obtain ⟨hn, hl, -⟩ := hinv
    unfold checkinWellFormed
    refine ⟨hn, hl, ?_, ?_⟩
    · intro t ht
      rw [show ((applyOps (CheckinBuilder.with_datetime dt) ops).build).tags
          = (applyOps (CheckinBuilder.with_datetime dt) ops).tags from rfl, htags] at ht
      cases ht
    · show isRfc3339SecsString
        (to_rfc3339_secs (applyOps (CheckinBuilder.with_datetime dt) ops).checked_in_at) = true
      rw [hts]
      exact to_rfc3339_secs_wellFormed dt hdt
  exact ⟨hwf, hwf, hwf⟩

/-- C8 witness: a concrete valid timestamp and a concrete call sequence. -/
theorem c8_built_checkin_well_formed_witness :
    ValidDateTime sampleDT ∧
    checkinWellFormed ((applyOps (CheckinBuilder.with_datetime sampleDT)
      [.setNote "hello", .setTags ["a"], .setPrivate true]).build) :=
  ⟨by decide,
   (c8_built_checkin_well_formed sampleDT
     [.setNote "hello", .setTags ["a"], .setPrivate true] (by decide)).1⟩

/-- C9: from every constructor, after any sequence of builder calls (however
many successful `tags` calls with valid non-empty input they include), the
stored tag sequence is still empty, and hence every built `Checkin` carries an
empty tag sequence. -/
theorem c9_tags_always_empty (dt : ChronoDateTime) (ops : List BuilderOp) :
    (applyOps (CheckinBuilder.with_datetime dt) ops).tags = [] ∧
    (applyOps (CheckinBuilder.new_local dt) ops).tags = [] ∧
    (applyOps (CheckinBuilder.new_utc dt) ops).tags = [] ∧
    ((applyOps (CheckinBuilder.with_datetime dt) ops).build).tags = [] := by
  have h : (applyOps (CheckinBuilder.with_datetime dt) ops).tags = [] := by
    rw [applyOps_tags_eq]; rfl
  exact ⟨h, h, h, h⟩

/-- C10: for a body with status 404 or 422 where `error.violations` is not an
array and `error.message` is present but not a JSON string (or `error` is not
an object at all), the classifier returns `OtherError` with the empty string
and never a decode error. -/
theorem c10_nonstring_message (v : Json) (s : Nat)
    (h : (v.index "status").as_u64 = some s) (hs : s = 404 ∨ s = 422)
    (hna : ((v.index "error").index "violations").is_array = false)
    (hm : ((v.index "error").index "message").as_str = none) :
    parse_response v = .ok (.OtherError "") := by
  rcases hs with rfl | rfl <;> simp [parse_response, h, hna, hm]

/-- C10 witness: status 422 with `error.message` a number. -/
theorem c10_nonstring_message_witness :
    parse_response (Json.obj [("status", Json.num 422),
      ("error", Json.obj [("message", Json.num 5)])]) = .ok (.OtherError "") :=
  c10_nonstring_message _ 422 rfl (Or.inr rfl) rfl rfl

end TissueRs
